import Mathlib

/-!
Verification of the `surge-ping` crate (sources `src/ping.rs`, `src/pingsocket.rs`,
`src/unix.rs`) against its natural-language specification.

The Rust code is shallowly embedded:
* one `ping(seq_cnt)` call (`src/ping.rs`, `Pinger::ping` lines 147-175 together with
  `Pinger::recv_reply` lines 122-144) becomes a small-step transition system
  `PingStep` over `PingState`, whose interleavings are exactly those of the detached
  send task spawned at line 157 and the main receive/timeout wait;
* the rate limiter `LimitBasket::shot` (`src/pingsocket.rs` lines 120-152) becomes a
  pure function over exact rationals (`f64` time arithmetic is modelled by `ℚ`;
  `Instant` subtraction saturates at zero);
* the reply dispatcher loop body (`PingSocket::run_task` lines 233-255) becomes a
  function `dispatchIter` over an association-list registration map, and the
  check-and-start logic (`PingSocket::check_task` lines 257-267 with the handle
  clearing at lines 253-254) becomes a second transition system `TaskStep`;
* constructors (`Pinger::new`, `PingSocketBuilder::new`, `PingSocket::pinger`,
  `PingSocket::create_pinger`) become record-building functions.
-/

/-- Model of `std::net::IpAddr`: an IPv4 or IPv6 destination.  The numeric payload
stands for the raw address bits, which none of the verified claims inspect. -/
inductive Ip where
  | v4 (a : ℕ)
  | v6 (a : ℕ)
deriving DecidableEq

/-- Outcome of running a piece of Rust code that may panic (`todo!()` at
`src/ping.rs` lines 130 and 151, and `.expect(..)` at line 161 panic; every other
path yields a value). -/
inductive RustOutcome (α : Type) where
  | ok (a : α)
  | panicked

/-- Progress of the detached send task spawned by `Pinger::ping`
(`src/ping.rs` lines 157-163): the task first awaits
`sender.send_to(..)` (which either succeeds or makes the task panic via
`.expect`), and only afterwards performs `cache.insert(ident, seq_cnt, now)`. -/
inductive SendPhase where
  /-- `send_to` has not been handed the packet yet. -/
  | pending
  /-- `send_to` completed successfully; `cache.insert` has not run yet. -/
  | sent
  /-- `send_to` returned an error, so `.expect` panicked the task;
  `cache.insert` never runs. -/
  | failed
  /-- `cache.insert` has run; the send task is finished. -/
  | inserted
deriving DecidableEq

/-- The value a `ping` call can return (`src/ping.rs` lines 165-174):
a matched reply, `SurgeError::Timeout { seq }`, or an error propagated out of
`recv_reply` (socket receive or decode failure).  There is no constructor for a
send error: `Pinger::ping` has no path that returns one. -/
inductive PingResult where
  | matched
  | timedOut (seq : ℕ)
  | recvError
deriving DecidableEq

/-- Progress of the main body of `Pinger::ping`: it is inside
`timeout(self.timeout, self.recv_reply(seq_cnt))` until one of the three exits
at lines 165-174 fires and the call returns. -/
inductive MainPhase where
  | waiting
  | returned (r : PingResult)
deriving DecidableEq

/-- Joint state of one `ping(seq_cnt)` call: the detached send task's phase,
whether the cache currently holds the record for the call's correlation token
`(ident, seq_cnt)`, and the main task's phase. -/
structure PingState where
  send : SendPhase
  cacheHas : Bool
  main : MainPhase
deriving DecidableEq

/-- State at the start of `Pinger::ping`, right after the `task::spawn` at
`src/ping.rs` line 157: nothing sent, no cache record, main task waiting. -/
def pingInit : PingState := ⟨SendPhase.pending, false, MainPhase.waiting⟩

/-- Small-step interleaving semantics of one `ping(seq_cnt)` call
(`src/ping.rs` lines 122-175).  Each constructor is one atomic action:
* `sendOk` / `sendFail`: the spawned task's `send_to` completes (line 158-161);
  on failure `.expect` panics the detached task;
* `insert`: the spawned task's `cache.insert` (line 162), which sets the record;
* `matchHit`: `recv_reply` sees a validated matching reply and `cache.remove`
  returns `Some` (lines 134-137), so the call returns `Ok`;
* `matchMiss`: a validated matching reply arrives but the record is absent, so
  `cache.remove` returns `None` and the reply is dropped, looping (line 135);
* `recvErr`: `recv_reply` fails, and the `map_err` at lines 166-169 removes the
  record and returns the error;
* `timeoutFire`: the timeout elapses, and lines 170-173 remove the record and
  return `SurgeError::Timeout { seq: seq_cnt }`. -/
inductive PingStep (seq : ℕ) : PingState → PingState → Prop
  | sendOk (c : Bool) (m : MainPhase) :
      PingStep seq ⟨SendPhase.pending, c, m⟩ ⟨SendPhase.sent, c, m⟩
  | sendFail (c : Bool) (m : MainPhase) :
      PingStep seq ⟨SendPhase.pending, c, m⟩ ⟨SendPhase.failed, c, m⟩
  | insert (c : Bool) (m : MainPhase) :
      PingStep seq ⟨SendPhase.sent, c, m⟩ ⟨SendPhase.inserted, true, m⟩
  | matchHit (sp : SendPhase) :
      PingStep seq ⟨sp, true, MainPhase.waiting⟩
        ⟨sp, false, MainPhase.returned PingResult.matched⟩
  | matchMiss (sp : SendPhase) :
      PingStep seq ⟨sp, false, MainPhase.waiting⟩ ⟨sp, false, MainPhase.waiting⟩
  | recvErr (sp : SendPhase) (c : Bool) :
      PingStep seq ⟨sp, c, MainPhase.waiting⟩
        ⟨sp, false, MainPhase.returned PingResult.recvError⟩
  | timeoutFire (sp : SendPhase) (c : Bool) :
      PingStep seq ⟨sp, c, MainPhase.waiting⟩
        ⟨sp, false, MainPhase.returned (PingResult.timedOut seq)⟩

/-- States of a `ping(seq_cnt)` call reachable from its start by any
interleaving of the detached send task with the main wait. -/
def PingReach (seq : ℕ) : PingState → Prop :=
  Relation.ReflTransGen (PingStep seq) pingInit

/-- Inductive invariant of one `ping` call:
1. the cache record exists only once the send task has completed its insert
   (so insertion strictly follows dispatch, never precedes it);
2. a successful return is only possible after the insert (a match requires
   `cache.remove` to return `Some`);
3. any timeout result carries this call's sequence number. -/
def pingInvariant (seq : ℕ) (s : PingState) : Prop :=
  (s.cacheHas = true → s.send = SendPhase.inserted)
  ∧ (s.main = MainPhase.returned PingResult.matched → s.send = SendPhase.inserted)
  ∧ (∀ q, s.main = MainPhase.returned (PingResult.timedOut q) → q = seq)

/-- Saturating difference of two instants in seconds: `Instant` subtraction in
Rust never yields a negative `Duration`. -/
def durSub (a b : ℚ) : ℚ := max (a - b) 0

/-- Model of `f64::trunc`: round a rational toward zero, yielding an integer. -/
def ratTrunc (q : ℚ) : ℤ := if q < 0 then -⌊-q⌋ else ⌊q⌋

/-- Model of `LimitBasket` (`src/pingsocket.rs` lines 105-110): the rate
limiter's state.  Times are exact rationals in seconds (`Instant`/`f64` in the
source). -/
structure LimitBasket where
  last : Option ℚ
  cnt : ℕ
  limit_pps : ℕ
  minwait_time : ℚ
deriving DecidableEq

/-- Model of `LimitBasket::new` (`src/pingsocket.rs` lines 112-119): no prior
timestamp, zero accumulated count, 1 ms minimum-wait floor. -/
def LimitBasket.new (limit_pps : ℕ) : LimitBasket :=
  { last := none, cnt := 0, limit_pps := limit_pps, minwait_time := 1 / 1000 }

/-- Model of `LimitBasket::shot` (`src/pingsocket.rs` lines 120-152), statement
by statement.  `t0` is `Instant::now()` at entry; `t1` is the value of
`Instant::now()` re-read after the sleep (the caller of the model supplies it).
The first component of the result is the duration slept (0 when no sleep
happened); the second is the updated basket.  `f64` arithmetic is modelled by
exact rationals. -/
def LimitBasket.shot (b : LimitBasket) (t0 t1 : ℚ) : ℚ × LimitBasket :=
  match b.last with
  | none => (0, { b with last := some t0, cnt := 1 })
  | some l =>
      let elapsed : ℚ := durSub t0 l
      let sub0 : ℤ := ratTrunc ((b.limit_pps : ℚ) * elapsed)
      let sub_pps : ℕ := (if sub0 < 0 then 0 else sub0).toNat
      let cnt1 : ℕ := if b.cnt ≤ sub_pps then 0 else b.cnt - sub_pps
      if 0 < cnt1 then
        let wd : ℚ := (cnt1 : ℚ) / (b.limit_pps : ℚ)
        if b.minwait_time ≤ wd then
          (wd, { b with cnt := 1, last := some t1 })
        else (0, { b with cnt := cnt1 + 1, last := some t0 })
      else (0, { b with cnt := cnt1 + 1, last := some t0 })

/-- The rate-limiter algorithm exactly as the specification words it (spec
section 4.2, steps 1-4): token allowance = elapsed × limit, truncated toward
zero and floored at zero; remaining count = accumulated count minus allowance,
floored at zero; if the remaining count is positive and remaining/limit meets
the minimum-wait floor, sleep for that wait, reset the count and refresh the
timestamp to the post-sleep now; then increment the count by one and record the
timestamp. -/
def LimitBasket.shotSpec (b : LimitBasket) (t0 t1 : ℚ) : ℚ × LimitBasket :=
  match b.last with
  | none => (0, { b with last := some t0, cnt := 1 })
  | some l =>
      let allowance : ℕ := (max (ratTrunc ((b.limit_pps : ℚ) * durSub t0 l)) 0).toNat
      let remaining : ℕ := b.cnt - allowance
      let wait : ℚ := (remaining : ℚ) / (b.limit_pps : ℚ)
      if 0 < remaining ∧ b.minwait_time ≤ wait then
        (wait, { b with cnt := 1, last := some t1 })
      else (0, { b with cnt := remaining + 1, last := some t0 })

/-- Model of a `tokio::sync::mpsc` bounded channel sender as the dispatcher
sees it: its capacity, the number of queued undelivered messages, and whether
the receiver is still alive. -/
structure Chan where
  cap : ℕ
  len : ℕ
  receiverAlive : Bool
deriving DecidableEq

/-- Whether `Sender::try_send` succeeds on this channel: it fails exactly when
the receiver has been dropped or the channel is full. -/
def Chan.trySendOk (c : Chan) : Bool := c.receiverAlive && decide (c.len < c.cap)

/-- Model of `tokio::sync::mpsc::channel(cap)`: a fresh empty bounded channel
with a live receiver. -/
def channel (cap : ℕ) : Chan := { cap := cap, len := 0, receiverAlive := true }

/-- Model of the shared `PingSocket` state the dispatcher manipulates
(`src/pingsocket.rs` lines 193-198): the registration map `pmap` from
destination address to delivery channel, whether the shared task handle
`recv_task` holds a handle, and whether a dispatcher task is in its receive
loop. -/
structure DispState where
  pmap : List (ℕ × Chan)
  handle : Bool
  running : Bool
deriving DecidableEq

/-- Lookup in the registration map (model of `BTreeMap::get`). -/
def pmapLookup : List (ℕ × Chan) → ℕ → Option Chan
  | [], _ => none
  | p :: rest, a => if p.1 = a then some p.2 else pmapLookup rest a

/-- Removal from the registration map (model of `BTreeMap::remove`). -/
def pmapRemove : List (ℕ × Chan) → ℕ → List (ℕ × Chan)
  | [], _ => []
  | p :: rest, a => if p.1 = a then pmapRemove rest a else p :: pmapRemove rest a

/-- Insertion into the registration map (model of `BTreeMap::insert`, which
replaces any prior registration for the same address). -/
def pmapInsert (m : List (ℕ × Chan)) (a : ℕ) (c : Chan) : List (ℕ × Chan) :=
  (a, c) :: pmapRemove m a

/-- Queue one delivered message on the channel registered for `a`. -/
def chanBump (m : List (ℕ × Chan)) (a : ℕ) : List (ℕ × Chan) :=
  m.map (fun p => if p.1 = a then (p.1, { p.2 with len := p.2.len + 1 }) else p)

/-- One iteration of the dispatcher loop in `PingSocket::run_task`
(`src/pingsocket.rs` lines 235-252) for a datagram whose source address is
`src`: look the source up in the registration map; if absent, continue
unchanged; if present, `try_send` the datagram to its channel; on failure
remove the registration, and if the map became empty, break out of the loop —
after which the task clears the shared handle (lines 253-254) and terminates. -/
def dispatchIter (s : DispState) (src : ℕ) : DispState :=
  match pmapLookup s.pmap src with
  | none => s
  | some ch =>
      if ch.trySendOk then { s with pmap := chanBump s.pmap src }
      else
        let m1 := pmapRemove s.pmap src
        if m1 = [] then { pmap := m1, handle := false, running := false }
        else { s with pmap := m1 }

/-- Model of `PingSocket::check_task` (`src/pingsocket.rs` lines 257-267): under
the lock, if the shared handle is already set do nothing; otherwise spawn the
dispatcher and store its handle. -/
def check_task (s : DispState) : DispState :=
  if s.handle then s else { s with handle := true, running := true }

/-- Model of `PingSocket::pinger` (`src/pingsocket.rs` lines 268-273): create a
bounded channel of capacity 100, register its sender for `addr` (replacing any
prior registration), and run `check_task`.  Returns the new socket state and
the channel created for the pinger. -/
def PingSocket.pinger (s : DispState) (addr : ℕ) : DispState × Chan :=
  let ch := channel 100
  (check_task { s with pmap := pmapInsert s.pmap addr ch }, ch)

/-- Model of `PingSocket::create_pinger` (`src/pingsocket.rs` lines 211-227): a
fresh socket whose registration map holds exactly the new pinger's channel of
capacity 100, with the dispatcher task started unconditionally. -/
def PingSocket.create_pinger (addr : ℕ) : DispState × Chan :=
  let ch := channel 100
  ({ pmap := [(addr, ch)], handle := true, running := true }, ch)

/-- Model of `socket2::Domain` as used by `PingSocketBuilder::new`
(`src/pingsocket.rs` lines 34-44): IPv4, IPv6, or any other domain (rejected). -/
inductive Domain where
  | ipv4
  | ipv6
  | other
deriving DecidableEq

/-- Model of `DEFAULT_LIMIT_PPS` (`src/pingsocket.rs` line 18). -/
def DEFAULT_LIMIT_PPS : ℕ := 10000

/-- Model of `PingSocketBuilder` (`src/pingsocket.rs` lines 29-32): the domain
the raw socket was created for and the configured send-rate ceiling. -/
structure PingSocketBuilder where
  domain : Domain
  send_limit_pps : ℕ
deriving DecidableEq

/-- Model of `PingSocketBuilder::new` (`src/pingsocket.rs` lines 34-58): builds
a raw ICMP socket for the requested domain (failing on any other domain) and
sets the send limit to `DEFAULT_LIMIT_PPS`. -/
def PingSocketBuilder.new (d : Domain) : Option PingSocketBuilder :=
  match d with
  | Domain.ipv4 => some { domain := Domain.ipv4, send_limit_pps := DEFAULT_LIMIT_PPS }
  | Domain.ipv6 => some { domain := Domain.ipv6, send_limit_pps := DEFAULT_LIMIT_PPS }
  | Domain.other => none

/-- Model of `PingSocketBuilder::build` (`src/pingsocket.rs` lines 100-103),
restricted to the rate limiter it installs: the built socket's limiter is
`LimitBasket::new(self.send_limit_pps)` (via `AsyncSocket::new` and
`InnerSocket::new`, lines 158-164 and 180-185). -/
def PingSocketBuilder.build (b : PingSocketBuilder) : LimitBasket :=
  LimitBasket.new b.send_limit_pps

/-- Model of `Pinger` configuration as set up by `Pinger::new`
(`src/ping.rs` lines 58-66): destination, 16-bit identifier, payload size,
TTL, and per-call timeout in seconds. -/
structure PingerState where
  destination : Ip
  ident : ℕ
  size : ℕ
  ttl : ℕ
  timeout : ℚ
deriving DecidableEq

/-- Model of `Pinger::new` (`src/ping.rs` lines 70-80): random identifier
(passed in, reduced to 16 bits), payload size 56, TTL 60, timeout 2 seconds. -/
def Pinger.new (host : Ip) (randomIdent : ℕ) : PingerState :=
  { destination := host, ident := randomIdent % 65536, size := 56, ttl := 60,
    timeout := 2 }

/-- The `match self.destination` at `src/ping.rs` lines 149-152 inside
`Pinger::ping`: the IPv4 arm defers to `icmpv4::make_icmpv4_echo_packet`
(whose result is passed in, as that codec lives outside `src/`), while the
IPv6 arm is `todo!()`, i.e. a panic. -/
def ping_packet_arm (dst : Ip) (v4_encode : RustOutcome (List ℕ)) :
    RustOutcome (List ℕ) :=
  match dst with
  | Ip.v4 _ => v4_encode
  | Ip.v6 _ => RustOutcome.panicked

/-- The `match self.destination` at `src/ping.rs` lines 128-131 inside
`Pinger::recv_reply`: the IPv4 arm defers to `Icmpv4Packet::decode` (result
passed in), while the IPv6 arm is `todo!()`, i.e. a panic. -/
def recv_reply_packet_arm (dst : Ip) (v4_decode : RustOutcome (List ℕ)) :
    RustOutcome (List ℕ) :=
  match dst with
  | Ip.v4 _ => v4_decode
  | Ip.v6 _ => RustOutcome.panicked

/-- Entry of `Pinger::ping`: the packet-construction match runs before the
send task is spawned and before any waiting, so a panic there is the outcome
of the whole call; otherwise the call proceeds into the `PingStep` machine at
`pingInit`. -/
def ping_entry (dst : Ip) (v4_encode : RustOutcome (List ℕ)) :
    RustOutcome PingState :=
  match ping_packet_arm dst v4_encode with
  | RustOutcome.ok _ => RustOutcome.ok pingInit
  | RustOutcome.panicked => RustOutcome.panicked

/-- State of the dispatcher-task lifecycle for one shared socket, abstracting
`recv_task` (the shared handle) and the dispatcher tasks themselves: `inLoop`
counts tasks inside the receive loop, `exiting` counts tasks that have left
the loop but not yet cleared the handle (`src/pingsocket.rs` lines 252-254). -/
structure TaskState where
  handle : Bool
  inLoop : ℕ
  exiting : ℕ
deriving DecidableEq

/-- A shared socket starts with no handle and no dispatcher task
(`PingSocket::new_socket`, `src/pingsocket.rs` lines 204-210). -/
def taskInit : TaskState := ⟨false, 0, 0⟩

/-- Lifecycle events of the dispatcher task(s) of one shared socket, each
atomic under the `recv_task` lock:
* `checkStart`: `check_task` finds no handle, spawns `run_task` and stores its
  handle (`src/pingsocket.rs` lines 262-266);
* `checkNoop`: `check_task` finds a handle and returns without spawning
  (lines 259-261);
* `exitLoop`: a running dispatcher leaves its receive loop (map became empty,
  or the socket receive failed — lines 235, 248-250);
* `clearHandle`: the exited task clears the shared handle and terminates
  (lines 253-254). -/
inductive TaskStep : TaskState → TaskState → Prop
  | checkStart (n e : ℕ) : TaskStep ⟨false, n, e⟩ ⟨true, n + 1, e⟩
  | checkNoop (n e : ℕ) : TaskStep ⟨true, n, e⟩ ⟨true, n, e⟩
  | exitLoop (h : Bool) (n e : ℕ) : TaskStep ⟨h, n + 1, e⟩ ⟨h, n, e + 1⟩
  | clearHandle (h : Bool) (n e : ℕ) : TaskStep ⟨h, n, e + 1⟩ ⟨false, n, e⟩

/-- Socket-task states reachable from a freshly built shared socket under any
interleaving of registrations (`check_task` calls) and task exits. -/
def TaskReach : TaskState → Prop :=
  Relation.ReflTransGen TaskStep taskInit

theorem pingInvariant_holds (seq : ℕ) (s : PingState) (h : PingReach seq s) :
    pingInvariant seq s := by
  induction h with
  | refl => simp [pingInvariant, pingInit]
  | tail hr hstep ih => cases hstep <;> simp_all [pingInvariant] <;> exact ih.2.2

/-- C1 (amended): in every reachable state of a `ping(seq_cnt)` call, the
Pending Request Record is present only after the detached send task has both
dispatched the packet and performed its insert — i.e. the record is recorded
strictly after the send, never before or atomically with it. -/
theorem C1_record_only_after_send_completes (seq : ℕ) (s : PingState)
    (h : PingReach seq s) (hc : s.cacheHas = true) :
    s.send = SendPhase.inserted :=
  (pingInvariant_holds seq s h).1 hc

/-- Witness for C1's amended theorem: the state in which the send task has run
to completion is reachable and there the record is present. -/
theorem C1_record_only_after_send_completes_witness :
    (PingState.mk SendPhase.inserted true MainPhase.waiting).send
      = SendPhase.inserted :=
  C1_record_only_after_send_completes 0
    ⟨SendPhase.inserted, true, MainPhase.waiting⟩
    (Relation.ReflTransGen.tail
      (Relation.ReflTransGen.single (PingStep.sendOk false MainPhase.waiting))
      (PingStep.insert false MainPhase.waiting))
    rfl

/-- C1 counterexample: one step after the start of `ping 0`, the packet has
been handed to the socket's send operation (it completed successfully), yet
the cache holds no record for the token — the claim "at no reachable point has
the request been dispatched while its record is absent" is false. -/
theorem C1_counterexample :
    PingReach 0 ⟨SendPhase.sent, false, MainPhase.waiting⟩
    ∧ (PingState.mk SendPhase.sent false MainPhase.waiting).cacheHas = false :=
  ⟨Relation.ReflTransGen.single (PingStep.sendOk false MainPhase.waiting), rfl⟩

/-- C2 (amended): at the instant any return path of `ping` fires — matched
reply, receive error, or timeout — the cache record for the token is absent.
(The detached send task may still insert a record afterwards; see the
counterexample.) -/
theorem C2_cache_empty_at_return_instant (seq : ℕ) (s t : PingState)
    (r : PingResult) (hstep : PingStep seq s t) (hw : s.main = MainPhase.waiting)
    (hr : t.main = MainPhase.returned r) : t.cacheHas = false := by
  cases hstep <;> simp_all

/-- Witness for C2's amended theorem: applied to the concrete timeout step of
`ping 0` from the initial state. -/
theorem C2_cache_empty_at_return_instant_witness :
    (PingState.mk SendPhase.pending false
      (MainPhase.returned (PingResult.timedOut 0))).cacheHas = false :=
  C2_cache_empty_at_return_instant 0
    ⟨SendPhase.pending, false, MainPhase.waiting⟩
    ⟨SendPhase.pending, false, MainPhase.returned (PingResult.timedOut 0)⟩
    (PingResult.timedOut 0)
    (PingStep.timeoutFire SendPhase.pending false) rfl rfl

/-- C2 counterexample: in `ping 0`, the timeout can fire (removing nothing,
the record does not exist yet), after which the slow detached send task
completes and inserts the record.  The reached state has the call returned
with its `Timeout` result while the record sits in the cache, and no further
step of this call exists, so nothing ever removes it: the record outlives the
request, refuting "the record never outlives the request". -/
theorem C2_counterexample :
    PingReach 0 ⟨SendPhase.inserted, true,
        MainPhase.returned (PingResult.timedOut 0)⟩
    ∧ (PingState.mk SendPhase.inserted true
        (MainPhase.returned (PingResult.timedOut 0))).cacheHas = true
    ∧ ∀ t, ¬ PingStep 0 ⟨SendPhase.inserted, true,
        MainPhase.returned (PingResult.timedOut 0)⟩ t := by
  refine ⟨?_, rfl, ?_⟩
  · exact Relation.ReflTransGen.tail
      (Relation.ReflTransGen.tail
        (Relation.ReflTransGen.single (PingStep.timeoutFire SendPhase.pending false))
        (PingStep.sendOk false (MainPhase.returned (PingResult.timedOut 0))))
      (PingStep.insert false (MainPhase.returned (PingResult.timedOut 0)))
  · intro t h
    cases h

/-- C3 (amended): after the socket send for a `ping seq` call fails, the
detached send task has panicked via `.expect`; no cache record exists, and the
call's result — if it has returned — is a timeout (carrying `seq`) or a
receive error, never a success and never the send error itself. -/
theorem C3_send_error_not_surfaced (seq : ℕ) (s : PingState)
    (h : PingReach seq s) (hf : s.send = SendPhase.failed) :
    s.cacheHas = false
    ∧ ∀ r, s.main = MainPhase.returned r →
        r = PingResult.timedOut seq ∨ r = PingResult.recvError := by
  have inv := pingInvariant_holds seq s h
  constructor
  · cases hc : s.cacheHas with
    | false => rfl
    | true =>
        have h1 := inv.1 hc
        rw [hf] at h1
        exact absurd h1 (by simp)
  · intro r hr
    cases r with
    | matched =>
        have h2 := inv.2.1 hr
        rw [hf] at h2
        exact absurd h2 (by simp)
    | timedOut q =>
        exact Or.inl (by rw [inv.2.2 q hr])
    | recvError => exact Or.inr rfl

/-- Witness for C3's amended theorem: the state right after a failed send in
`ping 0` is reachable, and there the cache is empty. -/
theorem C3_send_error_not_surfaced_witness :
    (PingState.mk SendPhase.failed false MainPhase.waiting).cacheHas = false :=
  (C3_send_error_not_surfaced 0 ⟨SendPhase.failed, false, MainPhase.waiting⟩
    (Relation.ReflTransGen.single (PingStep.sendFail false MainPhase.waiting))
    rfl).1

/-- C3 counterexample: the send of `ping 0` fails (the detached task panics)
and yet the call terminates with `Timeout { seq: 0 }` — the send failure is
not surfaced as the result of the call, refuting the claim. -/
theorem C3_counterexample :
    PingReach 0 ⟨SendPhase.failed, false,
      MainPhase.returned (PingResult.timedOut 0)⟩ :=
  Relation.ReflTransGen.tail
    (Relation.ReflTransGen.single (PingStep.sendFail false MainPhase.waiting))
    (PingStep.timeoutFire SendPhase.failed false)

/-- C7: in every reachable state of a `ping seq` call, a returned timeout
result carries exactly the requested sequence number `seq`. -/
theorem C7_timeout_carries_requested_seq (seq : ℕ) (s : PingState) (q : ℕ)
    (h : PingReach seq s)
    (hr : s.main = MainPhase.returned (PingResult.timedOut q)) : q = seq :=
  (pingInvariant_holds seq s h).2.2 q hr

/-- Witness for C7: the timeout return of `ping 5` is reachable and carries 5. -/
theorem C7_timeout_carries_requested_seq_witness : (5 : ℕ) = 5 :=
  C7_timeout_carries_requested_seq 5
    ⟨SendPhase.pending, false, MainPhase.returned (PingResult.timedOut 5)⟩ 5
    (Relation.ReflTransGen.single (PingStep.timeoutFire SendPhase.pending false))
    rfl

/-- C4: on every send attempt, `LimitBasket::shot` computes exactly what the
specification's rate-limiter algorithm prescribes — the code-shaped function
and the spec-shaped function agree on the wait performed and on the updated
state, for every basket and every pair of clock readings. -/
theorem C4_shot_matches_spec (b : LimitBasket) (t0 t1 : ℚ) :
    b.shot t0 t1 = b.shotSpec t0 t1 := by
  rcases b with ⟨last, cnt, limit, minw⟩
  cases last with
  | none => rfl
  | some l =>
      simp only [LimitBasket.shot, LimitBasket.shotSpec]
      have h1 : (if ratTrunc ((limit : ℚ) * durSub t0 l) < 0 then 0
          else ratTrunc ((limit : ℚ) * durSub t0 l)).toNat
          = (max (ratTrunc ((limit : ℚ) * durSub t0 l)) 0).toNat := by
        split <;> omega
      rw [h1]
      set a : ℕ := (max (ratTrunc ((limit : ℚ) * durSub t0 l)) 0).toNat with ha
      have h2 : (if cnt ≤ a then 0 else cnt - a) = cnt - a := by
        split <;> omega
      rw [h2]
      by_cases hA : 0 < cnt - a
      · by_cases hB : minw ≤ ((cnt - a : ℕ) : ℚ) / (limit : ℚ)
        · simp [hA, hB]
        · simp [hA, hB]
      · simp [hA]

theorem pmapLookup_remove (m : List (ℕ × Chan)) (a : ℕ) :
    pmapLookup (pmapRemove m a) a = none := by
  induction m with
  | nil => rfl
  | cons p rest ih => by_cases h : p.1 = a <;> simp [pmapRemove, h, pmapLookup, ih]

/-- C5: if a received datagram's source address is registered and the
non-blocking delivery to its channel fails (receiver dropped or channel full),
the dispatcher iteration removes that registration; and when the map thereby
becomes empty the task terminates and clears the shared handle, after which a
later `check_task` can start a fresh dispatcher. -/
theorem C5_failed_delivery_removes_registration (s : DispState) (src : ℕ)
    (ch : Chan) (hlk : pmapLookup s.pmap src = some ch)
    (hfail : ch.trySendOk = false) :
    pmapLookup (dispatchIter s src).pmap src = none
    ∧ ((dispatchIter s src).pmap = [] →
        (dispatchIter s src).handle = false
        ∧ (dispatchIter s src).running = false
        ∧ (check_task (dispatchIter s src)).handle = true) := by
  unfold dispatchIter
  rw [hlk]
  by_cases hemp : pmapRemove s.pmap src = [] <;>
    simp [hfail, hemp, pmapLookup_remove, check_task, pmapLookup]

/-- Witness for C5: a socket with one registration whose channel is full (100
queued messages out of capacity 100); delivery fails, the registration is
removed, the map is empty, the handle is cleared and `check_task` restarts. -/
theorem C5_failed_delivery_removes_registration_witness :
    pmapLookup (dispatchIter ⟨[(3, ⟨100, 100, true⟩)], true, true⟩ 3).pmap 3
      = none :=
  (C5_failed_delivery_removes_registration
    ⟨[(3, ⟨100, 100, true⟩)], true, true⟩ 3 ⟨100, 100, true⟩
    (by decide) (by decide)).1

theorem taskInvariant_holds (s : TaskState) (h : TaskReach s) :
    s.inLoop + s.exiting ≤ 1
    ∧ (s.handle = true ↔ s.inLoop + s.exiting = 1) := by
  induction h with
  | refl => simp [taskInit]
  | tail hr hstep ih =>
      cases hstep <;> simp_all <;> omega

/-- C6: for every shared socket and every interleaving of registrations
(`check_task` calls) and dispatcher terminations, at most one dispatcher task
is live (in its loop or exiting) at any reachable point, and any further step
from a reachable state keeps it that way — in particular a `check_task` while
one runs does not spawn a second. -/
theorem C6_at_most_one_dispatcher (s : TaskState) (h : TaskReach s) :
    s.inLoop + s.exiting ≤ 1
    ∧ ∀ t, TaskStep s t → t.inLoop + t.exiting ≤ 1 :=
  ⟨(taskInvariant_holds s h).1,
   fun t hs => (taskInvariant_holds t (h.tail hs)).1⟩

/-- Witness for C6: the state after the first registration spawned the
dispatcher is reachable, and it has exactly one live task. -/
theorem C6_at_most_one_dispatcher_witness :
    TaskState.inLoop ⟨true, 1, 0⟩ + TaskState.exiting ⟨true, 1, 0⟩ ≤ 1 :=
  (C6_at_most_one_dispatcher ⟨true, 1, 0⟩
    (Relation.ReflTransGen.single (TaskStep.checkStart 0 0))).1

/-- C8: a freshly constructed `Pinger` has payload size 56 and timeout 2
seconds, and a freshly constructed ping-socket builder (hence the socket built
from it) has a send-rate ceiling of 10000 packets per second. -/
theorem C8_defaults (host : Ip) (r : ℕ) (d : Domain) (b : PingSocketBuilder)
    (hb : PingSocketBuilder.new d = some b) :
    (Pinger.new host r).size = 56 ∧ (Pinger.new host r).timeout = 2
    ∧ b.send_limit_pps = 10000
    ∧ (PingSocketBuilder.build b).limit_pps = 10000 := by
  have key : b.send_limit_pps = DEFAULT_LIMIT_PPS := by
    cases d with
    | ipv4 => injection hb with h; rw [← h]
    | ipv6 => injection hb with h; rw [← h]
    | other => exact Option.noConfusion hb
  exact ⟨rfl, rfl, key, key⟩

/-- Witness for C8: instantiated at an IPv4 destination and the IPv4 domain. -/
theorem C8_defaults_witness :
    (Pinger.new (Ip.v4 0) 0).size = 56 ∧ (Pinger.new (Ip.v4 0) 0).timeout = 2
    ∧ PingSocketBuilder.send_limit_pps
        ⟨Domain.ipv4, DEFAULT_LIMIT_PPS⟩ = 10000
    ∧ (PingSocketBuilder.build ⟨Domain.ipv4, DEFAULT_LIMIT_PPS⟩).limit_pps
        = 10000 :=
  C8_defaults (Ip.v4 0) 0 Domain.ipv4 ⟨Domain.ipv4, DEFAULT_LIMIT_PPS⟩ rfl

/-- C9: for an IPv6 destination, both destination matches — the one in
`Pinger::ping` and the one in `Pinger::recv_reply` — hit the `todo!()` arm and
panic, whatever the IPv4 codec would have produced; consequently `ping` on an
IPv6 destination panics before reaching its send/wait machinery, instead of
returning an error value. -/
theorem C9_ipv6_panics (a : ℕ) (e d : RustOutcome (List ℕ)) :
    ping_packet_arm (Ip.v6 a) e = RustOutcome.panicked
    ∧ recv_reply_packet_arm (Ip.v6 a) d = RustOutcome.panicked
    ∧ ping_entry (Ip.v6 a) e = RustOutcome.panicked :=
  ⟨rfl, rfl, rfl⟩

/-- C10: every per-destination delivery channel the shared socket creates —
via `PingSocket::pinger` or via `PingSocket::create_pinger` — is bounded with
capacity exactly 100 and starts empty, and the registration stored for the
address is that same channel. -/
theorem C10_channel_capacity_100 (s : DispState) (addr : ℕ) :
    (PingSocket.pinger s addr).2.cap = 100
    ∧ (PingSocket.create_pinger addr).2.cap = 100
    ∧ pmapLookup (PingSocket.pinger s addr).1.pmap addr = some (channel 100)
    ∧ pmapLookup (PingSocket.create_pinger addr).1.pmap addr
        = some (channel 100) := by
  refine ⟨rfl, rfl, ?_, ?_⟩
  · unfold PingSocket.pinger check_task pmapInsert
    by_cases h : s.handle <;> simp [h, pmapLookup]
  · unfold PingSocket.create_pinger
    simp [pmapLookup]
